import Mathlib

/-!
Verification of the Expo + Strapi blog client.

This file shallowly embeds the data model and the operations of the
repository: the content-block model and its renderer
(`components/blocks/block-renderer.tsx`, in its intermediate and final
versions), the media-URL resolver (`lib/utils.ts`), the fetch wrapper
(`lib/strapi-api.ts`), the data loaders (`data/loaders.ts`), the React
Query hooks (`hooks/useArticles.ts`), the query-client configuration
(`app/_layout.tsx`) and the infinite-scroll consumer
(`app/(tabs)/blog.tsx`).  Asynchrony is modelled by passing the
transport's reply (or the whole backend) as an explicit argument, and a
thrown `Error` is modelled as `Except.error`.
-/

namespace ExpoStrapiBlog

/-! ## Data model (`types/index.ts`) -/

/-- `TImage` from `types/index.ts`. -/
structure TImage where
  id : Nat
  documentId : String
  alternativeText : Option String
  url : String
  width : Option Nat
  height : Option Nat
deriving DecidableEq, Repr

/-- `TTag` from `types/index.ts`. -/
structure TTag where
  id : Nat
  documentId : String
  title : String
deriving DecidableEq, Repr

/-- `TAuthor` from `types/index.ts`. -/
structure TAuthor where
  id : Nat
  documentId : String
  fullName : String
  bio : Option String
  image : Option TImage
deriving DecidableEq, Repr

/-- `Article` from `types/index.ts`. -/
structure Article where
  id : Nat
  documentId : String
  title : String
  slug : String
  description : String
  content : String
  createdAt : String
  updatedAt : String
  publishedAt : String
  featuredImage : Option TImage
  author : Option TAuthor
  contentTags : Option (List TTag)
deriving DecidableEq, Repr

/-- Pagination metadata inside `StrapiMeta` (`types/index.ts`). -/
structure PaginationMeta where
  page : Nat
  pageSize : Nat
  pageCount : Nat
  total : Nat
deriving DecidableEq, Repr

/-- `StrapiMeta` from `types/index.ts`: the `pagination` field is optional. -/
structure StrapiMeta where
  pagination : Option PaginationMeta
deriving DecidableEq, Repr

/-- `StrapiCollectionResponse<T>` from `types/index.ts`. -/
structure StrapiCollectionResponse (T : Type) where
  data : List T
  meta : StrapiMeta
deriving DecidableEq, Repr

/-! ## Content blocks

The TypeScript `Block` union is a closed set of six interfaces, but at
runtime a block is whatever JSON object the CMS sends: the renderer
dispatches solely on the `__component` string and the numeric `id` is
used for the render key, so the runtime view of a block is its
discriminant tag together with its identifier (the kind-specific display
fields are consumed only inside the individual presentation components,
which are out of scope here). -/

/-- A content block as seen by the renderer: its discriminant tag
(`__component`) and its identifier (`id`). -/
structure Block where
  __component : String
  id : Nat
deriving DecidableEq, Repr

/-- The six registered block kinds of the final `BlockRenderer`
(`components/blocks/block-renderer.tsx`). -/
def registeredKinds : List String :=
  ["blocks.hero", "blocks.section-heading", "blocks.card-grid",
   "blocks.content-with-image", "blocks.markdown", "blocks.faqs"]

/-- The possible results of `renderBlock`: one presentation component per
registered kind, the yellow "Block not implemented" placeholder of the
intermediate renderer, and `null` (the final renderer's default arm). -/
inductive Rendered where
  | hero (b : Block)
  | sectionHeading (b : Block)
  | cardGrid (b : Block)
  | contentWithImage (b : Block)
  | markdownText (b : Block)
  | faqs (b : Block)
  | placeholder (text : String)
  | nullContent
deriving DecidableEq, Repr

/-- `renderBlock` of the intermediate `BlockRenderer` (Step 6.4): only
`blocks.hero` is registered; every other tag yields the visible
placeholder `Block not implemented: <tag>`. -/
def renderBlockV1 (block : Block) : Rendered :=
  if block.__component == "blocks.hero" then .hero block
  else .placeholder ("Block not implemented: " ++ block.__component)

/-- `renderBlock` of the final `BlockRenderer` (Step 6.9): six registered
kinds; the default arm returns `null`. -/
def renderBlock (block : Block) : Rendered :=
  if block.__component == "blocks.hero" then .hero block
  else if block.__component == "blocks.section-heading" then .sectionHeading block
  else if block.__component == "blocks.card-grid" then .cardGrid block
  else if block.__component == "blocks.content-with-image" then .contentWithImage block
  else if block.__component == "blocks.markdown" then .markdownText block
  else if block.__component == "blocks.faqs" then .faqs block
  else .nullContent

/-- One keyed `<View>` produced by `BlockRenderer` for one block. -/
structure RenderedUnit where
  key : String
  content : Rendered
deriving DecidableEq, Repr

/-- The render key `` `${block.__component}-${block.id}-${index}` ``. -/
def blockKey (block : Block) (index : Nat) : String :=
  block.__component ++ "-" ++ toString block.id ++ "-" ++ toString index

/-- The final `BlockRenderer`: `blocks.map((block, index) => <View key=...>
{renderBlock(block)}</View>)`. -/
def BlockRenderer (blocks : List Block) : List RenderedUnit :=
  blocks.enum.map (fun p => { key := blockKey p.2 p.1, content := renderBlock p.2 })

/-- The intermediate `BlockRenderer` (Step 6.4), identical except that it
dispatches through `renderBlockV1`. -/
def BlockRendererV1 (blocks : List Block) : List RenderedUnit :=
  blocks.enum.map (fun p => { key := blockKey p.2 p.1, content := renderBlockV1 p.2 })

/-! ## Media resolution (`lib/utils.ts`) -/

/-- The default of `process.env.EXPO_PUBLIC_STRAPI_URL`. -/
def defaultStrapiURL : String := "http://localhost:1337"

/-- JS `String.prototype.startsWith`, as a prefix test on the character
sequences. -/
def strStartsWith (s pre : String) : Bool :=
  List.isPrefixOf pre.toList s.toList

/-- `getStrapiMedia` from `lib/utils.ts`, parametrised by the configured
base URL (`getStrapiURL()`).  `if (!url) return null` is true for a
missing URL and for the empty string (the only falsy string). -/
def getStrapiMedia (strapiURL : String) (url : Option String) : Option String :=
  match url with
  | none => none
  | some u =>
    if u == "" then none
    else if strStartsWith u "http" then some u
    else some (strapiURL ++ u)

/-! ## Fetch wrapper (`lib/strapi-api.ts`)

`fetchAPI` builds a URL from the endpoint and the query options and
performs the HTTP round-trip; we model the round-trip by a transport
function mapping the request (endpoint and options) to the `Response`
the server produced. -/

/-- The filters that the two loaders actually build: an `$eq` filter on
`slug` and a `$containsi` filter on `contentTags.title`. -/
inductive Filter where
  | slugEq (slug : String)
  | tagContainsi (tag : String)
deriving DecidableEq, Repr

/-- The pagination part of `QueryOptions`. -/
structure PageRequest where
  page : Nat
  pageSize : Nat
deriving DecidableEq, Repr

/-- `QueryOptions` from `lib/strapi-api.ts` (the fields the loaders use;
`populate` and `fields` only shape which attributes come back and are
not modelled). -/
structure QueryOptions where
  sort : Option (List String) := none
  pagination : Option PageRequest := none
  filters : Option Filter := none
deriving DecidableEq, Repr

/-- An HTTP `Response` as `fetchAPI` inspects it: `ok`, `status`,
`statusText` and the parsed JSON body. -/
structure HttpResponse (α : Type) where
  ok : Bool
  status : Nat
  statusText : String
  body : α
deriving DecidableEq, Repr

/-- A transport: what the server replies to a request on `endpoint` with
the given options. -/
def Transport (α : Type) : Type :=
  String → QueryOptions → HttpResponse α

/-- The message of the error `fetchAPI` throws on a non-ok response:
`` `API error: ${response.status} ${response.statusText}` ``. -/
def apiErrorMsg (status : Nat) (statusText : String) : String :=
  "API error: " ++ toString status ++ " " ++ statusText

/-- `fetchAPI` from `lib/strapi-api.ts`: on `response.ok` it returns the
parsed body, otherwise it throws `API error: <status> <statusText>`. -/
def fetchAPI {α : Type} (transport : Transport α) (endpoint : String)
    (options : QueryOptions) : Except String α :=
  let response := transport endpoint options
  if response.ok then Except.ok response.body
  else Except.error (apiErrorMsg response.status response.statusText)

/-- `collection(pluralApiId).find(options)` from `lib/strapi-api.ts`:
a direct call to `fetchAPI` on the plural API id. -/
def collectionFind {α : Type} (transport : Transport α) (pluralApiId : String)
    (options : QueryOptions) : Except String α :=
  fetchAPI transport pluralApiId options

/-! ## Data loaders (`data/loaders.ts`) -/

/-- `PAGE_SIZE` from `data/loaders.ts`. -/
def PAGE_SIZE : Nat := 10

/-- `GetArticlesParams` from `data/loaders.ts`. -/
structure GetArticlesParams where
  page : Option Nat := none
  pageSize : Option Nat := none
  tag : Option String := none
deriving DecidableEq, Repr

/-- The query options `getArticles` builds: sort by `createdAt:desc`,
page defaulting to 1, pageSize defaulting to `PAGE_SIZE`, and a
`$containsi` tag filter only when a tag is given. -/
def articlesQueryOptions (params : GetArticlesParams) : QueryOptions :=
  { sort := some ["createdAt:desc"],
    pagination := some { page := params.page.getD 1,
                         pageSize := params.pageSize.getD PAGE_SIZE },
    filters := params.tag.map Filter.tagContainsi }

/-- `getArticles` from `data/loaders.ts`. -/
def getArticles (transport : Transport (StrapiCollectionResponse Article))
    (params : GetArticlesParams) : Except String (StrapiCollectionResponse Article) :=
  collectionFind transport "articles" (articlesQueryOptions params)

/-- The query options `getArticleBySlug` builds: only the
`filters: { slug: { $eq: slug } }` entry. -/
def slugQueryOptions (slug : String) : QueryOptions :=
  { filters := some (Filter.slugEq slug) }

/-- `getArticleBySlug` from `data/loaders.ts`. -/
def getArticleBySlug (transport : Transport (StrapiCollectionResponse Article))
    (slug : String) : Except String (StrapiCollectionResponse Article) :=
  collectionFind transport "articles" (slugQueryOptions slug)

/-! ## The content backend (external collaborator) -/

/-- Case-insensitive containment, Strapi's `$containsi`. -/
def containsCI (hay needle : String) : Bool :=
  decide (List.IsInfix needle.toLower.toList hay.toLower.toList)

/-- Whether an article matches the `$containsi` tag filter. -/
def matchesTag (tag : String) (a : Article) : Bool :=
  (a.contentTags.getD []).any (fun t => containsCI t.title tag)

/-- The subset of the collection a filter keeps. -/
def applyFilter (filters : Option Filter) (db : List Article) : List Article :=
  match filters with
  | none => db
  | some (.slugEq s) => db.filter (fun a => a.slug == s)
  | some (.tagContainsi t) => db.filter (matchesTag t)

/-- Modelled from the spec: the Strapi content backend (an external
collaborator, not part of this repository) answers a collection `GET`
by applying the request's filters, slicing the matching items into the
requested page (page/pageSize defaulting to 1/25), and returning a 200
response whose envelope is `{ data, meta.pagination }` with
`meta.pagination` carrying page, pageSize, pageCount and total. -/
def strapiBackend (db : List Article) : Transport (StrapiCollectionResponse Article) :=
  fun _endpoint options =>
    let filtered := applyFilter options.filters db
    let page := (options.pagination.map PageRequest.page).getD 1
    let pageSize := (options.pagination.map PageRequest.pageSize).getD 25
    let total := filtered.length
    let pageCount := (total + pageSize - 1) / pageSize
    let items := (filtered.drop ((page - 1) * pageSize)).take pageSize
    { ok := true, status := 200, statusText := "OK",
      body := { data := items,
                meta := { pagination := some { page := page, pageSize := pageSize,
                                               pageCount := pageCount, total := total } } } }

/-! ## React Query hooks (`hooks/useArticles.ts`) -/

/-- The destructuring
`const { page, pageCount } = lastPage.meta.pagination || { page: 1, pageCount: 1 }`
inside `getNextPageParam`. -/
def paginationOrDefault (meta : StrapiMeta) : Nat × Nat :=
  match meta.pagination with
  | some p => (p.page, p.pageCount)
  | none => (1, 1)

/-- `getNextPageParam` of `useInfiniteArticles`:
`page < pageCount ? page + 1 : undefined`. -/
def getNextPageParam (lastPage : StrapiCollectionResponse Article) : Option Nat :=
  let pg := paginationOrDefault lastPage.meta
  if pg.1 < pg.2 then some (pg.1 + 1) else none

/-- Modelled from the spec: React Query's `hasNextPage` holds exactly
when `getNextPageParam` returned a page (not `undefined`). -/
def hasNextPage (lastPage : StrapiCollectionResponse Article) : Bool :=
  (getNextPageParam lastPage).isSome

/-- `initialPageParam: 1` of `useInfiniteArticles`. -/
def initialPageParam : Nat := 1

/-- The `queryKey: ["articles", "infinite", tag]` of `useInfiniteArticles`. -/
def infiniteArticlesQueryKey (tag : Option String) : String × String × Option String :=
  ("articles", "infinite", tag)

/-- The state of one infinite-query cache entry: the pages fetched so
far and the cursor (the page parameter the next fetch would use). -/
structure InfiniteQueryEntry where
  fetchedPages : List (StrapiCollectionResponse Article)
  nextPage : Option Nat
deriving DecidableEq, Repr

/-- A cache entry that has fetched nothing yet: its first fetch uses
`initialPageParam`. -/
def freshInfiniteEntry : InfiniteQueryEntry :=
  { fetchedPages := [], nextPage := some initialPageParam }

/-- Modelled from the spec: React Query's query cache is keyed by the
query key; a mount whose key has no cache entry starts from a fresh
entry (first fetch at `initialPageParam`), and an existing entry is
reused only when the key matches exactly. -/
def mountInfiniteArticles
    (cache : String × String × Option String → Option InfiniteQueryEntry)
    (tag : Option String) : InfiniteQueryEntry :=
  match cache (infiniteArticlesQueryKey tag) with
  | some entry => entry
  | none => freshInfiniteEntry

/-- The `enabled: !!slug` flag of `useArticleBySlug`: among strings only
the empty string is falsy. -/
def enabledForSlug (slug : String) : Bool :=
  !(slug == "")

/-- Modelled from the spec: React Query never invokes the query function
of a disabled query; an enabled query invokes it. -/
def runQueryIfEnabled {α : Type} (enabled : Bool) (queryFn : Unit → α) : Option α :=
  if enabled then some (queryFn ()) else none

/-- `useArticleBySlug`: its query function is `getArticleBySlug slug`,
guarded by `enabled: !!slug`.  The result is `none` when no fetch is
issued at all. -/
def useArticleBySlugQuery (transport : Transport (StrapiCollectionResponse Article))
    (slug : String) : Option (Except String (StrapiCollectionResponse Article)) :=
  runQueryIfEnabled (enabledForSlug slug) (fun _ => getArticleBySlug transport slug)

/-! ## Query-client configuration (`app/_layout.tsx`) -/

/-- The `defaultOptions.queries` of the `QueryClient`. -/
structure QueryClientQueries where
  staleTime : Nat
  retry : Nat
deriving DecidableEq, Repr

/-- `new QueryClient({ defaultOptions: { queries: { staleTime: 1000 * 60 * 5, retry: 3 } } })`. -/
def queryClientDefaultQueries : QueryClientQueries :=
  { staleTime := 1000 * 60 * 5, retry := 3 }

/-! ## Infinite-scroll consumer (`app/(tabs)/blog.tsx`) -/

/-- `onEndReached` of the blog screen: it calls `fetchNextPage()` iff
`hasNextPage && !isFetchingNextPage`.  The result is whether
`fetchNextPage` is invoked. -/
def onEndReached (hasNextPageFlag isFetchingNextPage : Bool) : Bool :=
  hasNextPageFlag && !isFetchingNextPage

/-! ## Concrete values used by the witnesses -/

/-- A paged collection response with the given pagination metadata. -/
def pagedResponse (data : List Article) (p : PaginationMeta) :
    StrapiCollectionResponse Article :=
  { data := data, meta := { pagination := some p } }

/-- A concrete article. -/
def demoArticle : Article :=
  { id := 1, documentId := "d1", title := "First post", slug := "first-post",
    description := "", content := "", createdAt := "", updatedAt := "",
    publishedAt := "", featuredImage := none, author := none, contentTags := none }

/-- A transport whose backend holds exactly `demoArticle`. -/
def demoTransport : Transport (StrapiCollectionResponse Article) :=
  strapiBackend [demoArticle]

/-- A transport that answers every request with a 500 response. -/
def failingTransport : Transport (StrapiCollectionResponse Article) :=
  fun _ _ => { ok := false, status := 500, statusText := "Internal Server Error",
               body := { data := [], meta := { pagination := none } } }

/-! ## Claims -/

/-- C2: for every paginated response carrying pagination metadata (which
satisfies the data-model invariant `page ≤ pageCount`), `getNextPageParam`
returns `page + 1` when `page < pageCount` and `undefined` (`none`)
otherwise, so `hasNextPage` is false exactly when `page = pageCount`. -/
theorem getNextPageParam_terminates_at_pageCount
    (data : List Article) (page pageSize pageCount total : Nat)
    (hinv : page ≤ pageCount) :
    (page < pageCount →
      getNextPageParam (pagedResponse data
        { page := page, pageSize := pageSize, pageCount := pageCount, total := total })
        = some (page + 1))
    ∧ (¬ page < pageCount →
      getNextPageParam (pagedResponse data
        { page := page, pageSize := pageSize, pageCount := pageCount, total := total })
        = none)
    ∧ (hasNextPage (pagedResponse data
        { page := page, pageSize := pageSize, pageCount := pageCount, total := total })
        = false ↔ page = pageCount) := by
  refine ⟨fun hlt => ?_, fun hge => ?_, ?_⟩
  · simp [getNextPageParam, pagedResponse, paginationOrDefault, hlt]
  · simp [getNextPageParam, pagedResponse, paginationOrDefault, hge]
  · simp only [hasNextPage, getNextPageParam, pagedResponse, paginationOrDefault]
    by_cases hlt : page < pageCount
    · simp [hlt]
      omega
    · simp [hlt]
      omega

/-- Witness for C2 at `page = 1 < pageCount = 3` and `page = pageCount = 3`. -/
theorem getNextPageParam_terminates_at_pageCount_witness :
    getNextPageParam (pagedResponse []
      { page := 1, pageSize := 10, pageCount := 3, total := 25 }) = some 2
    ∧ (hasNextPage (pagedResponse []
      { page := 3, pageSize := 10, pageCount := 3, total := 25 }) = false ↔ (3 : Nat) = 3) := by
  have h1 := getNextPageParam_terminates_at_pageCount [] 1 10 3 25 (by decide)
  have h3 := getNextPageParam_terminates_at_pageCount [] 3 10 3 25 (by decide)
  exact ⟨h1.1 (by decide), h3.2.2⟩

/-- C9: a page response whose metadata lacks the `pagination` object gets
the defaults `page = 1`, `pageCount = 1`, so `getNextPageParam` returns
no next page and pagination terminates. -/
theorem getNextPageParam_missing_pagination_defaults (data : List Article) :
    paginationOrDefault { pagination := none } = (1, 1)
    ∧ getNextPageParam { data := data, meta := { pagination := none } } = none
    ∧ hasNextPage { data := data, meta := { pagination := none } } = false :=
  ⟨rfl, rfl, rfl⟩

/-- C8: the blog screen's `onEndReached` invokes `fetchNextPage` only when
`hasNextPage` holds and no next-page fetch is in flight; in particular it
never issues a fetch while one is outstanding. -/
theorem onEndReached_no_concurrent_fetch (h f : Bool) :
    (f = true → onEndReached h f = false)
    ∧ (onEndReached h f = true → h = true ∧ f = false) := by
  cases h <;> cases f <;> simp [onEndReached]

/-- Witness for C8: with a fetch in flight, no new fetch is issued even
though more pages exist. -/
theorem onEndReached_no_concurrent_fetch_witness :
    onEndReached true true = false :=
  (onEndReached_no_concurrent_fetch true true).1 rfl

/-- C10: `useArticleBySlug` never issues a fetch for a falsy slug (the
empty string): the query is disabled via `enabled: !!slug`, and for a
non-empty slug the query function invoked is exactly `getArticleBySlug`. -/
theorem useArticleBySlug_disabled_on_falsy_slug
    (transport : Transport (StrapiCollectionResponse Article)) (slug : String)
    (h : slug ≠ "") :
    useArticleBySlugQuery transport "" = none
    ∧ useArticleBySlugQuery transport slug = some (getArticleBySlug transport slug) := by
  refine ⟨rfl, ?_⟩
  simp [useArticleBySlugQuery, runQueryIfEnabled, enabledForSlug, h]

/-- Witness for C10 at the empty slug and the slug `"first-post"`. -/
theorem useArticleBySlug_disabled_on_falsy_slug_witness :
    useArticleBySlugQuery demoTransport "" = none
    ∧ useArticleBySlugQuery demoTransport "first-post"
        = some (getArticleBySlug demoTransport "first-post") :=
  useArticleBySlug_disabled_on_falsy_slug demoTransport "first-post" (by decide)

/-- C5 counterexample: the empty string is a non-null URL string, yet
`getStrapiMedia` returns `null` for it — neither the URL unchanged nor
the base URL concatenated with it. -/
theorem getStrapiMedia_empty_string_cex :
    getStrapiMedia defaultStrapiURL (some "") = none
    ∧ getStrapiMedia defaultStrapiURL (some "") ≠ some (defaultStrapiURL ++ "")
    ∧ getStrapiMedia defaultStrapiURL (some "") ≠ some "" := by
  refine ⟨rfl, ?_, ?_⟩ <;> decide

/-- C5 (amended): for every non-null, non-empty URL string,
`getStrapiMedia` returns the URL unchanged when it starts with `"http"`
(absolute) and the configured base URL concatenated with the URL
otherwise; the empty string, being falsy, yields `null`. -/
theorem getStrapiMedia_resolves_nonempty (strapiURL u : String) (h : u ≠ "") :
    getStrapiMedia strapiURL (some u)
      = some (if strStartsWith u "http" then u else strapiURL ++ u)
    ∧ getStrapiMedia strapiURL (some "") = none := by
  refine ⟨?_, rfl⟩
  cases hs : strStartsWith u "http" <;> simp [getStrapiMedia, h, hs]

/-- Witness for C5 (amended) at the relative URL `"/uploads/a.png"`. -/
theorem getStrapiMedia_resolves_nonempty_witness :
    getStrapiMedia defaultStrapiURL (some "/uploads/a.png")
      = some (if strStartsWith "/uploads/a.png" "http" then "/uploads/a.png"
              else defaultStrapiURL ++ "/uploads/a.png")
    ∧ getStrapiMedia defaultStrapiURL (some "") = none :=
  getStrapiMedia_resolves_nonempty defaultStrapiURL "/uploads/a.png" (by decide)

/-- C3: when no article in the backend collection carries the requested
slug, `getArticleBySlug` resolves to an empty result (`data = []`) and
not to an error, while a non-ok HTTP response makes the fetch layer
throw `API error: <status> <statusText>` — so the caller can tell
"not found" (ok, empty) from a transport error (thrown). -/
theorem getArticleBySlug_notFound_empty_ok
    (db : List Article) (slug : String)
    (hnone : ∀ a ∈ db, a.slug ≠ slug)
    (transport : Transport (StrapiCollectionResponse Article))
    (endpoint : String) (options : QueryOptions)
    (hfail : (transport endpoint options).ok = false) :
    getArticleBySlug (strapiBackend db) slug
      = Except.ok { data := [],
                      meta := { pagination := some { page := 1, pageSize := 25, pageCount := 0, total := 0 } } }
    ∧ fetchAPI transport endpoint options
      = Except.error (apiErrorMsg (transport endpoint options).status
          (transport endpoint options).statusText) := by
  have hfilter : db.filter (fun a => a.slug == slug) = [] := by
    rw [List.filter_eq_nil_iff]
    intro a ha
    simp [hnone a ha]
  refine ⟨?_, ?_⟩
  · simp [getArticleBySlug, collectionFind, fetchAPI, strapiBackend, slugQueryOptions,
          applyFilter, hfilter]
  · simp [fetchAPI, hfail]

/-- Witness for C3: looking up the slug `"missing"` in a backend holding
only `demoArticle`, and a transport replying 500. -/
theorem getArticleBySlug_notFound_empty_ok_witness :
    getArticleBySlug (strapiBackend [demoArticle]) "missing"
      = Except.ok { data := [],
                      meta := { pagination := some { page := 1, pageSize := 25, pageCount := 0, total := 0 } } }
    ∧ fetchAPI failingTransport "articles" {}
      = Except.error (apiErrorMsg (failingTransport "articles" {}).status
          (failingTransport "articles" {}).statusText) :=
  getArticleBySlug_notFound_empty_ok [demoArticle] "missing" (by decide)
    failingTransport "articles" {} rfl

/-- C7: on every non-ok HTTP response `fetchAPI` throws an error whose
message carries the HTTP status; the loaders the hooks call pass the
fetch layer's result through unchanged; and the only automatic retries
are the `retry: 3` configured uniformly on the query client. -/
theorem fetchAPI_error_propagation_and_retry
    (transport : Transport (StrapiCollectionResponse Article))
    (endpoint : String) (options : QueryOptions)
    (hfail : (transport endpoint options).ok = false)
    (slug : String) (params : GetArticlesParams) :
    fetchAPI transport endpoint options
      = Except.error (apiErrorMsg (transport endpoint options).status
          (transport endpoint options).statusText)
    ∧ (∃ pre post, apiErrorMsg (transport endpoint options).status
          (transport endpoint options).statusText
        = pre ++ toString (transport endpoint options).status ++ post)
    ∧ getArticleBySlug transport slug = fetchAPI transport "articles" (slugQueryOptions slug)
    ∧ getArticles transport params = fetchAPI transport "articles" (articlesQueryOptions params)
    ∧ queryClientDefaultQueries.retry = 3 := by
  refine ⟨by simp [fetchAPI, hfail], ⟨"API error: ", " " ++ (transport endpoint options).statusText, ?_⟩,
    rfl, rfl, rfl⟩
  simp [apiErrorMsg, String.append_assoc]

/-- Witness for C7 with the transport that answers 500 everywhere. -/
theorem fetchAPI_error_propagation_and_retry_witness :
    fetchAPI failingTransport "articles" {}
      = Except.error (apiErrorMsg (failingTransport "articles" {}).status
          (failingTransport "articles" {}).statusText)
    ∧ (∃ pre post, apiErrorMsg (failingTransport "articles" {}).status
          (failingTransport "articles" {}).statusText
        = pre ++ toString (failingTransport "articles" {}).status ++ post)
    ∧ getArticleBySlug failingTransport "first-post"
        = fetchAPI failingTransport "articles" (slugQueryOptions "first-post")
    ∧ getArticles failingTransport {}
        = fetchAPI failingTransport "articles" (articlesQueryOptions {})
    ∧ queryClientDefaultQueries.retry = 3 :=
  fetchAPI_error_propagation_and_retry failingTransport "articles" {} rfl "first-post" {}

/-- C1 counterexample: in the final `BlockRenderer` (the one whose six
kinds are registered) a block tagged `"blocks.unknown-type"` renders
`null`, not a placeholder containing the literal tag string. -/
theorem unknownBlock_no_placeholder_cex :
    renderBlock { __component := "blocks.unknown-type", id := 1 } = Rendered.nullContent
    ∧ ¬ ∃ pre post, renderBlock { __component := "blocks.unknown-type", id := 1 }
        = Rendered.placeholder (pre ++ "blocks.unknown-type" ++ post) := by
  refine ⟨by decide, ?_⟩
  rintro ⟨pre, post, h⟩
  rw [show renderBlock { __component := "blocks.unknown-type", id := 1 }
        = Rendered.nullContent from by decide] at h
  exact Rendered.noConfusion h

/-- C1 (amended): for every block whose tag is none of the six registered
kinds, the final block renderer produces an empty (`null`) presentation
unit — never throwing and never dropping the remaining blocks (one unit
per block is still produced) — while the visible placeholder carrying
the raw tag (`Block not implemented: <tag>`) is produced by the
intermediate renderer version that registers only the hero kind. -/
theorem unknownBlock_fail_soft (b : Block) (h : b.__component ∉ registeredKinds) :
    renderBlock b = Rendered.nullContent
    ∧ renderBlockV1 b = Rendered.placeholder ("Block not implemented: " ++ b.__component)
    ∧ (∃ pre post, ("Block not implemented: " ++ b.__component)
        = pre ++ b.__component ++ post)
    ∧ (∀ blocks : List Block, (BlockRenderer blocks).length = blocks.length) := by
  simp only [registeredKinds, List.mem_cons, List.mem_singleton, not_or,
    List.not_mem_nil, or_false] at h
  obtain ⟨h1, h2, h3, h4, h5, h6⟩ := h
  refine ⟨?_, ?_, ⟨"Block not implemented: ", "", by simp⟩, ?_⟩
  · simp [renderBlock, h1, h2, h3, h4, h5, h6]
  · simp [renderBlockV1, h1]
  · intro blocks
    simp [BlockRenderer, List.enum_length]

/-- Witness for C1 (amended) at a block tagged `"blocks.unknown-type"`. -/
theorem unknownBlock_fail_soft_witness :
    renderBlock { __component := "blocks.unknown-type", id := 7 } = Rendered.nullContent
    ∧ renderBlockV1 { __component := "blocks.unknown-type", id := 7 }
        = Rendered.placeholder ("Block not implemented: " ++ "blocks.unknown-type")
    ∧ (BlockRenderer [{ __component := "blocks.unknown-type", id := 7 }]).length = 1 := by
  have h := unknownBlock_fail_soft { __component := "blocks.unknown-type", id := 7 } (by decide)
  exact ⟨h.1, h.2.1, h.2.2.2 [{ __component := "blocks.unknown-type", id := 7 }]⟩

/-- C4: the block renderer produces exactly one presentation unit per
input block, in input order (the unit at every index comes from the
block at the same index), and the empty sequence produces no units. -/
theorem blockRenderer_order_and_count (blocks : List Block) :
    (BlockRenderer blocks).length = blocks.length
    ∧ (∀ i : Nat, (BlockRenderer blocks)[i]?
        = (blocks[i]?).map (fun b => { key := blockKey b i, content := renderBlock b }))
    ∧ BlockRenderer ([] : List Block) = [] := by
  refine ⟨?_, ?_, rfl⟩
  · simp [BlockRenderer, List.enum_length]
  · intro i
    simp [BlockRenderer, List.getElem?_map, List.getElem?_enum, Option.map_map]
    rfl

/-- C6: the infinite-articles query key couples the filter with the
cursor: distinct tags yield distinct keys, a key with no cache entry
starts from a fresh entry whose first fetch uses `initialPageParam = 1`
with no pages carried over, and what the mount sees depends only on the
cache entry of its own key — never on a cursor reached under another
filter. -/
theorem filterChange_restarts_from_page_one
    (tag1 tag2 : Option String) (hne : tag1 ≠ tag2)
    (cache : String × String × Option String → Option InfiniteQueryEntry)
    (hcold : cache (infiniteArticlesQueryKey tag2) = none) :
    infiniteArticlesQueryKey tag1 ≠ infiniteArticlesQueryKey tag2
    ∧ mountInfiniteArticles cache tag2 = freshInfiniteEntry
    ∧ (mountInfiniteArticles cache tag2).nextPage = some initialPageParam
    ∧ (mountInfiniteArticles cache tag2).fetchedPages = []
    ∧ initialPageParam = 1
    ∧ (∀ cache2 : String × String × Option String → Option InfiniteQueryEntry,
        cache2 (infiniteArticlesQueryKey tag2) = cache (infiniteArticlesQueryKey tag2) →
        mountInfiniteArticles cache2 tag2 = mountInfiniteArticles cache tag2) := by
  refine ⟨?_, ?_, ?_, ?_, rfl, ?_⟩
  · simp [infiniteArticlesQueryKey, hne]
  · simp [mountInfiniteArticles, hcold]
  · simp [mountInfiniteArticles, hcold, freshInfiniteEntry]
  · simp [mountInfiniteArticles, hcold, freshInfiniteEntry]
  · intro cache2 h2
    simp [mountInfiniteArticles, h2]

/-- Witness for C6: switching from the tag `"tech"` to no tag with a
cold cache restarts from the fresh entry at page 1. -/
theorem filterChange_restarts_from_page_one_witness :
    infiniteArticlesQueryKey (some "tech") ≠ infiniteArticlesQueryKey none
    ∧ mountInfiniteArticles (fun _ => none) none = freshInfiniteEntry
    ∧ (mountInfiniteArticles (fun _ => none) none).nextPage = some initialPageParam := by
  have h := filterChange_restarts_from_page_one (some "tech") none (by decide)
    (fun _ => none) rfl
  exact ⟨h.1, h.2.1, h.2.2.1⟩

end ExpoStrapiBlog
